import Mathlib

/-!
# Verification of the Spotify-2023 dashboard data pipeline

Shallow embedding of the loading/filtering/aggregation logic of
`spotify_dashboard_1.py` (the only source file of the repository), together
with theorems settling the specification claims about it.

Tables are embedded as `List Row` (a pandas DataFrame is an ordered sequence
of rows); the filter chain, the streams coercion and the artist aggregates
are translated operation by operation from the script.
-/

/-- One row of the normalized track table (one row of the DataFrame returned
by `load_data` after column renaming).  The columns are those the claims
touch plus the remaining audio features; `streams` is already coerced to a
64-bit integer, hence `Int` here.  `key` and `mode` are nullable in the CSV,
hence `Option String` (pandas NaN is `none`). -/
structure Row where
  track_name : String
  artist_name : String
  released_year : Int
  released_month : Int
  released_day : Int
  bpm : Int
  key : Option String
  mode : Option String
  danceability : Int
  energy : Int
  valence : Int
  acousticness : Int
  instrumentalness : Int
  liveness : Int
  speechiness : Int
  streams : Int
deriving DecidableEq

/-- A raw CSV row before the `streams` coercion: `streams_raw` is the string
field as parsed from the file, every other column as in `Row`. -/
structure RawRow where
  track_name : String
  artist_name : String
  released_year : Int
  released_month : Int
  released_day : Int
  bpm : Int
  key : Option String
  mode : Option String
  danceability : Int
  energy : Int
  valence : Int
  acousticness : Int
  instrumentalness : Int
  liveness : Int
  speechiness : Int
  streams_raw : String
deriving DecidableEq

/-- A nonempty all-digit character list read as a decimal number. -/
def parseDigits (cs : List Char) : Option Nat :=
  match cs with
  | [] => none
  | _ => if cs.all Char.isDigit then
           some (cs.foldl (fun a c => 10 * a + (c.toNat - 48)) 0)
         else none

/-- The unsigned part of a numeric string: digits with an optional fractional
part; the fractional digits are discarded (the `astype(int64)` cast in the
script truncates toward zero). -/
def parse_body (cs : List Char) : Option Nat :=
  match cs.splitOn '.' with
  | [intPart] => parseDigits intPart
  | [intPart, fracPart] =>
      if fracPart.all Char.isDigit then parseDigits intPart else none
  | _ => none

/-- The whitespace characters Python's `float` strips at either end of a
numeric string. -/
def is_space (c : Char) : Bool :=
  c == ' ' || c == '\t' || c == '\n' || c == '\r' || c == '\x0b' || c == '\x0c'

/-- A character list with leading and trailing whitespace removed. -/
def strip_spaces (cs : List Char) : List Char :=
  ((cs.dropWhile is_space).reverse.dropWhile is_space).reverse

/-- Models `pd.to_numeric(df['streams'], errors='coerce')` followed by
`astype('int64')`.  `to_numeric` parses a string like Python `float`:
surrounding whitespace is stripped, an optional `+` or `-` sign precedes
one or more digits, and an optional fractional part is truncated toward
zero by the int64 cast.  Any other string (e.g. `"N/A"`) coerces to NaN and
`dropna` then removes the row.  Exponent notation and magnitudes at which
the float64 round-trip or the int64 cast stop being exact are outside the
model's scope: every value of this dataset's streams column is a plain
numeral far below 2^53. -/
def parse_streams (s : String) : Option Int :=
  match strip_spaces s.data with
  | '-' :: body => (parse_body body).map (fun n => -(n : Int))
  | '+' :: body => (parse_body body).map (fun n => (n : Int))
  | body => (parse_body body).map (fun n => (n : Int))

/-- The `streams` coercion step of `load_data` on one row: the row is kept,
with `streams` replaced by the parsed integer, exactly when the raw value
parses; otherwise `dropna(subset=['streams'])` removes it. -/
def coerce_streams (r : RawRow) : Option Row :=
  (parse_streams r.streams_raw).map (fun n =>
    { track_name := r.track_name
      artist_name := r.artist_name
      released_year := r.released_year
      released_month := r.released_month
      released_day := r.released_day
      bpm := r.bpm
      key := r.key
      mode := r.mode
      danceability := r.danceability
      energy := r.energy
      valence := r.valence
      acousticness := r.acousticness
      instrumentalness := r.instrumentalness
      liveness := r.liveness
      speechiness := r.speechiness
      streams := n })

/-- Models `df.drop_duplicates()`: remove rows identical across every column,
keeping the first occurrence (pandas `keep='first'`). -/
def drop_duplicates (l : List Row) : List Row :=
  go l []
where
  go : List Row → List Row → List Row
  | [], _ => []
  | r :: rs, seen => if r ∈ seen then go rs seen else r :: go rs (r :: seen)

/-- The loader pipeline of `load_data` after column renaming: coerce
`streams` dropping unparseable rows, then remove exact-duplicate rows.  The
derived columns (`released_date`, `decade`) are pure functions of the fields
already present (see `decade`), so they are modelled as derived accessors
rather than stored columns; adding them before deduplication cannot change
which rows survive. -/
def load_data (rows : List RawRow) : List Row :=
  drop_duplicates (rows.filterMap coerce_streams)

/-- The derived `decade` column: `(df['released_year'] // 10) * 10` with
Python floor division. -/
def decade (r : Row) : Int :=
  r.released_year.fdiv 10 * 10

/-- The user-selected Filter Constraint Set: the sidebar controls at one
interaction.  `year_range = (year_lo, year_hi)`, `bpm_range`, the key/mode
select boxes (holding either a concrete value or the sentinel `"Semua"`) and
the three advanced percentage sliders. -/
structure Constraints where
  year_lo : Int
  year_hi : Int
  bpm_lo : Int
  bpm_hi : Int
  selected_key : String
  selected_mode : String
  dance_lo : Int
  dance_hi : Int
  energy_lo : Int
  energy_hi : Int
  valence_lo : Int
  valence_hi : Int
deriving DecidableEq

/-- The basic filter mask: `(released_year >= year_range[0]) &
(released_year <= year_range[1]) & (bpm >= bpm_range[0]) &
(bpm <= bpm_range[1])`. -/
def matches_basic (c : Constraints) (r : Row) : Bool :=
  decide (c.year_lo ≤ r.released_year ∧ r.released_year ≤ c.year_hi ∧
          c.bpm_lo ≤ r.bpm ∧ r.bpm ≤ c.bpm_hi)

/-- Models `if selected_key != 'Semua': filtered_df = filtered_df[filtered_df['key']
== selected_key]` — pandas `NaN == v` is `False`, so `none == some v` here. -/
def filter_key (c : Constraints) (df : List Row) : List Row :=
  if c.selected_key ≠ "Semua" then
    df.filter (fun r => r.key == some c.selected_key)
  else df

/-- The analogous conditional filter on `mode`. -/
def filter_mode (c : Constraints) (df : List Row) : List Row :=
  if c.selected_mode ≠ "Semua" then
    df.filter (fun r => r.mode == some c.selected_mode)
  else df

/-- The advanced filter mask: inclusive danceability/energy/valence ranges. -/
def matches_advanced (c : Constraints) (r : Row) : Bool :=
  decide (c.dance_lo ≤ r.danceability ∧ r.danceability ≤ c.dance_hi ∧
          c.energy_lo ≤ r.energy ∧ r.energy ≤ c.energy_hi ∧
          c.valence_lo ≤ r.valence ∧ r.valence ≤ c.valence_hi)

/-- The Filtered View: the four filter stages of the script applied in
program order (basic ranges, then key, then mode, then the advanced
ranges). -/
def filtered_df (df : List Row) (c : Constraints) : List Row :=
  let basic := df.filter (matches_basic c)
  let afterKey := filter_key c basic
  let afterMode := filter_mode c afterKey
  afterMode.filter (matches_advanced c)

/-- The conjunction of all active constraints, written directly from the
spec's filtering semantics (§4.2): every range inclusive on both bounds,
key/mode an exact match unless the selector holds the sentinel `"Semua"`. -/
def satisfies_constraints (c : Constraints) (r : Row) : Prop :=
  c.year_lo ≤ r.released_year ∧ r.released_year ≤ c.year_hi ∧
  c.bpm_lo ≤ r.bpm ∧ r.bpm ≤ c.bpm_hi ∧
  (c.selected_key = "Semua" ∨ r.key = some c.selected_key) ∧
  (c.selected_mode = "Semua" ∨ r.mode = some c.selected_mode) ∧
  c.dance_lo ≤ r.danceability ∧ r.danceability ≤ c.dance_hi ∧
  c.energy_lo ≤ r.energy ∧ r.energy ≤ c.energy_hi ∧
  c.valence_lo ≤ r.valence ∧ r.valence ≤ c.valence_hi

instance (c : Constraints) (r : Row) : Decidable (satisfies_constraints c r) := by
  unfold satisfies_constraints; infer_instance

/-- Models `total_artists = filtered_df['artist_name'].nunique()`: the number of
distinct values of the (unsplit) artist-name column. -/
def total_artists (fd : List Row) : Nat :=
  (fd.map (·.artist_name)).dedup.length

/-- Split a character list on each (non-overlapping, leftmost-first)
occurrence of the two-character separator `",_"` — the semantics of the
pattern `',_'` that the script passes to `str.split` (it contains no regex
metacharacter, so regex and literal reading coincide). -/
def split_on_comma_underscore : List Char → List (List Char)
  | [] => [[]]
  | ',' :: '_' :: cs => [] :: split_on_comma_underscore cs
  | c :: cs =>
    match split_on_comma_underscore cs with
    | [] => [[c]]
    | g :: gs => (c :: g) :: gs

/-- Models `str.split(',_')` on one artist-name value. -/
def split_artists (s : String) : List String :=
  (split_on_comma_underscore s.data).map (fun cs => String.mk cs)

/-- Models `df_artists['artist_name'].str.split(',_')` followed by
`explode('artist_name')`: each row is replaced by one copy per component of
its artist string split on `",_"`, exactly as the script writes it. -/
def explode_artists (fd : List Row) : List Row :=
  fd.flatMap (fun r =>
    (split_artists r.artist_name).map (fun a => { r with artist_name := a }))

/-- Insert into a list kept sorted by `val` in descending order. -/
def insert_desc (val : α → Int) (x : α) : List α → List α
  | [] => [x]
  | y :: ys => if val y < val x then x :: y :: ys else y :: insert_desc val x ys

/-- Sort by `val` in descending order (insertion sort). -/
def sort_desc (val : α → Int) : List α → List α
  | [] => []
  | x :: xs => insert_desc val x (sort_desc val xs)

/-- Models `Series.nlargest(n)`: the `n` largest entries by `val`; on a series of
fewer than `n` entries it returns all of them. -/
def nlargest (n : Nat) (val : α → Int) (l : List α) : List α :=
  (sort_desc val l).take n

/-- Models `Series.value_counts()`: one `(value, multiplicity)` pair per distinct
value, ordered by decreasing multiplicity. -/
def value_counts (xs : List String) : List (String × Nat) :=
  sort_desc (fun p => (p.2 : Int)) (xs.eraseDups.map (fun k => (k, xs.count k)))

/-- Models `top_artists_count = df_artists['artist_name'].value_counts()
.nlargest(selected_artists_count)`. -/
def top_artists_count (fd : List Row) (n : Nat) : List (String × Nat) :=
  ((value_counts ((explode_artists fd).map (·.artist_name)))).take n

/-- Models `df_artists.groupby('artist_name')['streams'].sum()`: one
`(artist, summed streams)` pair per distinct exploded artist name. -/
def artist_stream_sums (fd : List Row) : List (String × Int) :=
  let ex := explode_artists fd
  ((ex.map (·.artist_name)).eraseDups).map (fun k =>
    (k, ((ex.filter (fun r => r.artist_name == k)).map (·.streams)).sum))

/-- Models `top_artists_streams = df_artists.groupby('artist_name')['streams']
.sum().nlargest(selected_artists_count)`. -/
def top_artists_streams (fd : List Row) (n : Nat) : List (String × Int) :=
  nlargest n (fun p => p.2) (artist_stream_sums fd)

/-- Models `filtered_df.groupby('decade')['danceability'].mean()`: the per-decade
arithmetic mean of danceability (representative of the group-by means the
page draws); groups are the decades actually present, so no empty group
arises. -/
def decade_danceability_mean (fd : List Row) : List (Int × Rat) :=
  ((fd.map decade).eraseDups).map (fun d =>
    let grp := fd.filter (fun r => decade r == d)
    (d, ((grp.map (fun r => (r.danceability : Rat))).sum) / (grp.length : Rat)))

/-- The aggregates the page computes from a nonempty Filtered View (the Key
Metrics row, the two top-artist rankings and a representative group-by
mean). -/
structure Metrics where
  total_tracks : Nat
  distinct_artists : Nat
  total_streams : Int
  top_count : List (String × Nat)
  top_streams : List (String × Int)
  decade_dance : List (Int × Rat)
deriving DecidableEq

/-- What the page shows after filtering: either the explicit "no matching
data" warning (the `st.warning` + `st.stop()` branch) or the dashboard built
from the aggregates. -/
inductive DashboardOutput where
  | noMatchingData : DashboardOutput
  | dashboard : Metrics → DashboardOutput
deriving DecidableEq

/-- The main page flow after the sidebar: compute the Filtered View; if it
is empty, warn and stop (no aggregate is computed past this point in the
script); otherwise compute the aggregates and render them. -/
def render (df : List Row) (c : Constraints) (n : Nat) : DashboardOutput :=
  let fd := filtered_df df c
  if fd.isEmpty then .noMatchingData
  else .dashboard
    { total_tracks := fd.length
      distinct_artists := total_artists fd
      total_streams := (fd.map (·.streams)).sum
      top_count := top_artists_count fd n
      top_streams := top_artists_streams fd n
      decade_dance := decade_danceability_mean fd }

/-!
## Spec-side definitions

Definitions written from the spec's words, to be compared with the
code-side definitions above.
-/

/-- Split a character list on each occurrence of the two-character sequence
`", "` (comma and space) — the delimiter the dataset actually uses between
the names of a multi-artist string. -/
def split_on_comma_space : List Char → List (List Char)
  | [] => [[]]
  | ',' :: ' ' :: cs => [] :: split_on_comma_space cs
  | c :: cs =>
    match split_on_comma_space cs with
    | [] => [[c]]
    | g :: gs => (c :: g) :: gs

/-- One artist string split into its delimited component names, as the spec
describes artist-level aggregates. -/
def spec_split_artist_names (s : String) : List String :=
  (split_on_comma_space s.data).map (fun cs => String.mk cs)

/-- The count of distinct individual artist names of a view as the spec
describes it for the Key Metrics row: split every multi-artist string into
its delimited component names, then count distinct names. -/
def spec_distinct_artists (fd : List Row) : Nat :=
  ((fd.map (·.artist_name)).flatMap spec_split_artist_names).dedup.length

/-!
## Sample data

Concrete rows and constraint sets used by the concrete-scenario conjuncts,
witnesses and counterexamples.
-/

/-- A template row; sample rows below override individual fields. -/
def baseRow : Row :=
  { track_name := "track"
    artist_name := "A"
    released_year := 2020
    released_month := 1
    released_day := 1
    bpm := 120
    key := some "C#"
    mode := some "Major"
    danceability := 50
    energy := 50
    valence := 50
    acousticness := 10
    instrumentalness := 0
    liveness := 10
    speechiness := 5
    streams := 1000 }

/-- A template raw CSV row. -/
def baseRaw : RawRow :=
  { track_name := "track"
    artist_name := "A"
    released_year := 2020
    released_month := 1
    released_day := 1
    bpm := 120
    key := some "C#"
    mode := some "Major"
    danceability := 50
    energy := 50
    valence := 50
    acousticness := 10
    instrumentalness := 0
    liveness := 10
    speechiness := 5
    streams_raw := "1000" }

/-- A constraint set that constrains nothing: full ranges, both selectors on
the sentinel. -/
def openConstraints : Constraints :=
  { year_lo := 1900, year_hi := 2100
    bpm_lo := 0, bpm_hi := 300
    selected_key := "Semua", selected_mode := "Semua"
    dance_lo := 0, dance_hi := 100
    energy_lo := 0, energy_hi := 100
    valence_lo := 0, valence_hi := 100 }

/-- The spec's 5-row scenario table: years {2020, 2021, 2022}, tempos
{90, 120, 150}, with exactly one row at (year 2021, tempo 120). -/
def demo5 : List Row :=
  [ { baseRow with track_name := "t1", released_year := 2020, bpm := 120 },
    { baseRow with track_name := "t2", released_year := 2020, bpm := 150 },
    { baseRow with track_name := "t3", released_year := 2021, bpm := 120 },
    { baseRow with track_name := "t4", released_year := 2021, bpm := 90 },
    { baseRow with track_name := "t5", released_year := 2022, bpm := 90 } ]

/-- The spec scenario's constraint set: year ∈ [2021, 2022], tempo ∈
[100, 200], everything else unconstrained. -/
def demoC3 : Constraints :=
  { openConstraints with year_lo := 2021, year_hi := 2022, bpm_lo := 100, bpm_hi := 200 }

/-- A row whose artist field holds the multi-artist value `"A, B"`. -/
def rowAB : Row := { baseRow with artist_name := "A, B" }

/-- A raw row whose streams field is the unparseable string `"N/A"`. -/
def naRaw : RawRow := { baseRaw with streams_raw := "N/A" }

/-- A raw row with parseable streams `"123"`. -/
def okRaw : RawRow := { baseRaw with streams_raw := "123" }

/-- The normalized row `okRaw` loads to. -/
def okRow : Row := { baseRow with streams := 123 }

/-- A raw row whose streams field parses to the negative number `-5`. -/
def negRaw : RawRow := { baseRaw with streams_raw := "-5" }

/-- The normalized row `negRaw` loads to: streams retained as `-5`. -/
def negRow : Row := { baseRow with streams := -5 }

/-- A row with a null `key` and a null `mode` (pandas NaN). -/
def nullKeyRow : Row := { baseRow with key := none, mode := none }

/-!
## Helper lemmas
-/

/-- The four filter stages of `filtered_df` compose into one filter by the
conjunction of all active constraints. -/
theorem filtered_df_eq_filter (df : List Row) (c : Constraints) :
    filtered_df df c = df.filter (fun r => decide (satisfies_constraints c r)) := by
  unfold filtered_df filter_key filter_mode
  split_ifs with hk hm hm <;>
    simp only [List.filter_filter] <;>
    refine List.filter_congr (fun r _ => ?_) <;>
    rw [Bool.eq_iff_iff] <;>
    simp only [matches_basic, matches_advanced, satisfies_constraints,
      Bool.and_eq_true, decide_eq_true_eq, beq_iff_eq] <;>
    constructor <;> intro h <;> tauto

/-- Membership in the Filtered View is membership in the base table plus
the conjunction of all active constraints. -/
theorem mem_filtered_iff (df : List Row) (c : Constraints) (r : Row) :
    r ∈ filtered_df df c ↔ r ∈ df ∧ satisfies_constraints c r := by
  rw [filtered_df_eq_filter]
  simp [List.mem_filter]

/-- Deduplication only removes rows: every survivor was in the input. -/
theorem mem_of_mem_drop_duplicates_go (l : List Row) (seen : List Row) (x : Row)
    (h : x ∈ drop_duplicates.go l seen) : x ∈ l := by
  induction l generalizing seen with
  | nil => simp [drop_duplicates.go] at h
  | cons r rs ih =>
    unfold drop_duplicates.go at h
    split at h
    · exact List.mem_cons_of_mem _ (ih _ h)
    · rcases List.mem_cons.mp h with rfl | h'
      · exact List.mem_cons_self _ _
      · exact List.mem_cons_of_mem _ (ih _ h')

/-- Every survivor of `drop_duplicates` was in the input. -/
theorem mem_of_mem_drop_duplicates (l : List Row) (x : Row)
    (h : x ∈ drop_duplicates l) : x ∈ l :=
  mem_of_mem_drop_duplicates_go l [] x h

/-- Provenance of a loaded row: its `streams` value is the successful parse
of the raw streams string of some input row. -/
theorem load_data_streams_from_parse (rows : List RawRow) (r : Row)
    (h : r ∈ load_data rows) :
    ∃ raw ∈ rows, parse_streams raw.streams_raw = some r.streams := by
  have h' := mem_of_mem_drop_duplicates _ _ h
  rcases List.mem_filterMap.mp h' with ⟨raw, hraw, hco⟩
  refine ⟨raw, hraw, ?_⟩
  unfold coerce_streams at hco
  rcases Option.map_eq_some'.mp hco with ⟨n, hp, heq⟩
  rw [hp, ← heq]

/-- Inserting with `insert_desc` grows the length by one. -/
theorem length_insert_desc (val : α → Int) (x : α) (l : List α) :
    (insert_desc val x l).length = l.length + 1 := by
  induction l with
  | nil => rfl
  | cons y ys ih =>
    unfold insert_desc
    split <;> simp [ih]

/-- Sorting preserves length. -/
theorem length_sort_desc (val : α → Int) (l : List α) :
    (sort_desc val l).length = l.length := by
  induction l with
  | nil => rfl
  | cons x xs ih => simp [sort_desc, length_insert_desc, ih]

/-!
## Claim theorems
-/

/-- C1, counterexample: the Key Metrics scalar `total_artists` is
`nunique()` over the unsplit artist column, so a joined multi-artist string
counts as one artist — on the one-row view whose artist field is `"A, B"`
it differs from the split-based count the claim states (1 versus 2). -/
theorem c1_counterexample :
    total_artists [rowAB] ≠ spec_distinct_artists [rowAB] := by decide

/-- C1, amended: the Key Metrics scalar "count of distinct artists" is the
number of distinct unsplit artist-name strings of the Filtered View (the
cardinality of the set of artist-column values); a joined multi-artist
string such as `"A, B"` contributes a single artist. -/
theorem c1_amended :
    (∀ fd : List Row,
        total_artists fd = (fd.map (·.artist_name)).toFinset.card) ∧
    total_artists [rowAB] = 1 := by
  refine ⟨fun fd => (List.card_toFinset _).symm, by decide⟩

/-- C2, the code evaluated at the failing input: the script splits artist
strings on `",_"` (comma-underscore), a sequence that never occurs in a
value delimited by comma-space, so the row `"A, B"` survives the explode
unsplit and the occurrence aggregate credits one count to the artist
literally named `"A, B"` and none to `"A"` or `"B"`. -/
theorem c2_code_on_failing_input :
    explode_artists [rowAB] = [rowAB] ∧
    top_artists_count [rowAB] 5 = [("A, B", 1)] := by decide

/-- C3: the Filtered View holds exactly the rows of the base table that
satisfy the conjunction of all active constraints, every range inclusive on
both bounds; on the spec's 5-row scenario table with year ∈ [2021, 2022]
and tempo ∈ [100, 200] it has exactly one row. -/
theorem c3_filter_is_inclusive_conjunction :
    (∀ (df : List Row) (c : Constraints) (r : Row),
        r ∈ filtered_df df c ↔ r ∈ df ∧ satisfies_constraints c r) ∧
    (filtered_df demo5 demoC3).length = 1 :=
  ⟨mem_filtered_iff, by decide⟩

/-- C4: the sentinel `'Semua'` in the key or mode selector skips that
categorical constraint entirely: the corresponding filter stage returns its
input (the otherwise-filtered table) unchanged, so every row — rows with a
null key or mode included — is retained. -/
theorem c4_sentinel_skips_categorical (c : Constraints) (df : List Row) :
    (c.selected_key = "Semua" → filter_key c df = df) ∧
    (c.selected_mode = "Semua" → filter_mode c df = df) := by
  constructor <;> intro h <;> simp [filter_key, filter_mode, h]

/-- C4, witness: with both selectors on `'Semua'`, a table whose only row
has null key and mode passes both categorical stages untouched. -/
theorem c4_witness :
    filter_key openConstraints [nullKeyRow] = [nullKeyRow] ∧
    filter_mode openConstraints [nullKeyRow] = [nullKeyRow] :=
  ⟨(c4_sentinel_skips_categorical openConstraints [nullKeyRow]).1 rfl,
   (c4_sentinel_skips_categorical openConstraints [nullKeyRow]).2 rfl⟩

/-- C5: every row the loader retains carries as `streams` the integer a
successful numeric parse of some input row's raw field produced, so a row
whose raw streams value does not parse (such as `"N/A"`) is dropped
entirely; concretely, loading an `"N/A"` row next to a parseable one yields
only the parseable row — no row survives with streams coerced to a
sentinel. -/
theorem c5_unparseable_streams_rows_dropped :
    (∀ (rows : List RawRow) (r : Row), r ∈ load_data rows →
        ∃ raw ∈ rows, parse_streams raw.streams_raw = some r.streams) ∧
    load_data [naRaw, okRaw] = [okRow] ∧ parse_streams "N/A" = none :=
  ⟨load_data_streams_from_parse, by decide, by decide⟩

/-- C5, witness: the retained row of the concrete load traces back to the
parseable raw row. -/
theorem c5_witness :
    ∃ raw ∈ [naRaw, okRaw], parse_streams raw.streams_raw = some okRow.streams :=
  c5_unparseable_streams_rows_dropped.1 [naRaw, okRaw] okRow (by decide)

/-- C6, counterexample: the loader does not enforce non-negativity — a raw
streams value `"-5"` parses numerically, so its row is retained with the
negative streams value −5 rather than excluded. -/
theorem c6_counterexample : ∃ r ∈ load_data [negRaw], r.streams < 0 := by decide

/-- C6, amended: every retained row's streams value is exactly the integer
the numeric coercion produced from some input row's raw field (so the
column is integral after the cast), but its sign is unconstrained: the
loader retains a numerically parseable negative raw value as-is, as the
concrete load of the `"-5"` row shows. -/
theorem c6_amended :
    (∀ (rows : List RawRow) (r : Row), r ∈ load_data rows →
        ∃ raw ∈ rows, parse_streams raw.streams_raw = some r.streams) ∧
    (load_data [negRaw]).map (·.streams) = [-5] :=
  ⟨load_data_streams_from_parse, by decide⟩

/-- C6, witness: the retained row of the concrete negative load carries the
parse of its raw field. -/
theorem c6_witness :
    ∃ raw ∈ [negRaw], parse_streams raw.streams_raw = some negRow.streams :=
  c6_amended.1 [negRaw] negRow (by decide)

/-- C7: when the Filtered View is empty the page renders the explicit
"no matching data" warning and stops: the output is `noMatchingData`, which
carries no aggregate — the scalar metrics, the rankings and the group-by
means exist only inside the `dashboard` branch, past the stop, so none is
computed and no error is raised. -/
theorem c7_empty_view_renders_warning (df : List Row) (c : Constraints) (n : Nat)
    (h : filtered_df df c = []) :
    render df c n = DashboardOutput.noMatchingData := by
  simp [render, h]

/-- C7, witness: a constraint set no row matches renders the warning. -/
theorem c7_witness :
    render [baseRow] { openConstraints with year_lo := 2050 } 15
      = DashboardOutput.noMatchingData :=
  c7_empty_view_renders_warning _ _ _ (by decide)

/-- C8: for every view and every requested N, both top-artist rankings
return exactly min(N, number of distinct artist groups) entries — when N
exceeds the number of distinct exploded artist names, the result has
exactly that many entries and is never padded. -/
theorem c8_topn_clamped (fd : List Row) (n : Nat) :
    (top_artists_count fd n).length
      = min n (((explode_artists fd).map (·.artist_name)).eraseDups.length) ∧
    (top_artists_streams fd n).length
      = min n (((explode_artists fd).map (·.artist_name)).eraseDups.length) := by
  constructor
  · simp [top_artists_count, value_counts, length_sort_desc]
  · simp [top_artists_streams, nlargest, artist_stream_sums, length_sort_desc]

/-- C9: enlarging the range constraints pointwise (year, tempo,
danceability, energy, valence) while keeping the categorical selectors
unchanged never decreases the Filtered View's row count; two constraint
sets differing in a single widened range satisfy these hypotheses (the
unchanged ranges contain themselves), and read right-to-left the same
statement says narrowing never increases the count. -/
theorem c9_widening_monotone (df : List Row) (c₁ c₂ : Constraints)
    (hyl : c₂.year_lo ≤ c₁.year_lo) (hyh : c₁.year_hi ≤ c₂.year_hi)
    (hbl : c₂.bpm_lo ≤ c₁.bpm_lo) (hbh : c₁.bpm_hi ≤ c₂.bpm_hi)
    (hdl : c₂.dance_lo ≤ c₁.dance_lo) (hdh : c₁.dance_hi ≤ c₂.dance_hi)
    (hel : c₂.energy_lo ≤ c₁.energy_lo) (heh : c₁.energy_hi ≤ c₂.energy_hi)
    (hvl : c₂.valence_lo ≤ c₁.valence_lo) (hvh : c₁.valence_hi ≤ c₂.valence_hi)
    (hk : c₁.selected_key = c₂.selected_key)
    (hm : c₁.selected_mode = c₂.selected_mode) :
    (filtered_df df c₁).length ≤ (filtered_df df c₂).length := by
  rw [filtered_df_eq_filter, filtered_df_eq_filter,
      ← List.countP_eq_length_filter, ← List.countP_eq_length_filter]
  apply List.countP_mono_left
  intro r _ h
  simp only [decide_eq_true_eq] at h ⊢
  unfold satisfies_constraints at h ⊢
  obtain ⟨h1, h2, h3, h4, hkey, hmode, h5, h6, h7, h8, h9, h10⟩ := h
  refine ⟨by omega, by omega, by omega, by omega, ?_, ?_,
    by omega, by omega, by omega, by omega, by omega, by omega⟩
  · rw [← hk]; exact hkey
  · rw [← hm]; exact hmode

/-- A copy of the scenario constraints with the year range widened. -/
def wideC : Constraints := { demoC3 with year_lo := 2019, year_hi := 2024 }

/-- C9, witness: widening the scenario's year range keeps at least as many
rows. -/
theorem c9_witness :
    (filtered_df demo5 demoC3).length ≤ (filtered_df demo5 wideC).length :=
  c9_widening_monotone demo5 demoC3 wideC (by decide) (by decide) (by decide)
    (by decide) (by decide) (by decide) (by decide) (by decide) (by decide)
    (by decide) rfl rfl

/-- C10: when a specific (non-sentinel) key or mode value is selected, a
row whose key (respectively mode) is null never reaches the Filtered View —
pandas `NaN == value` is false, and here `none` never equals `some value`. -/
theorem c10_null_excluded_on_exact_match (df : List Row) (c : Constraints) (r : Row) :
    (c.selected_key ≠ "Semua" → r.key = none → r ∉ filtered_df df c) ∧
    (c.selected_mode ≠ "Semua" → r.mode = none → r ∉ filtered_df df c) := by
  refine ⟨fun hne hnull hmem => ?_, fun hne hnull hmem => ?_⟩
  · obtain ⟨_, _, _, _, hkey, _⟩ := ((mem_filtered_iff df c r).mp hmem).2
    rcases hkey with h | h
    · exact hne h
    · simp [hnull] at h
  · obtain ⟨_, _, _, _, _, hmode, _⟩ := ((mem_filtered_iff df c r).mp hmem).2
    rcases hmode with h | h
    · exact hne h
    · simp [hnull] at h

/-- Constraints selecting the concrete key `"C#"`. -/
def keyC : Constraints := { openConstraints with selected_key := "C#" }

/-- C10, witness: with key `"C#"` selected, the null-key row is excluded. -/
theorem c10_witness : nullKeyRow ∉ filtered_df [nullKeyRow] keyC :=
  (c10_null_excluded_on_exact_match [nullKeyRow] keyC nullKeyRow).1 (by decide) rfl
